import Mathlib

/-!
Shallow embedding of the OvmfPkg MptScsiDxe driver (MptScsi.c together with
the layout constants of IndustryStandard/FusionMptScsi.h).

Machine integers are modelled as Nat; byte buffers as List Nat; the PCI
register window is modelled by an explicit behaviour oracle (MptDevBehavior)
answering the n-th read / write of the driver, together with an IoTrace that
records how many reads happened and which writes were issued, in order.
The unbounded poll loop of MptScsiGetReply is modelled with fuel: a result of
none means the loop did not finish within the given fuel.
-/

-- EFI status codes (MdePkg): errors carry the top bit of a 64-bit word.
def MAX_BIT : Nat := 2 ^ 63
def EFI_SUCCESS : Nat := 0
def EFI_INVALID_PARAMETER : Nat := MAX_BIT + 2
def EFI_UNSUPPORTED : Nat := MAX_BIT + 3
def EFI_BAD_BUFFER_SIZE : Nat := MAX_BIT + 4
def EFI_DEVICE_ERROR : Nat := MAX_BIT + 7

-- EFI_ERROR(Status) tests the sign bit of the status word.
def EFI_ERROR (Status : Nat) : Bool := decide (MAX_BIT ≤ Status)

def MAX_UINT32 : Nat := 0xffffffff

-- Extended SCSI pass-thru protocol constants (MdePkg ScsiPassThruExt.h).
def EFI_EXT_SCSI_DATA_DIRECTION_READ : Nat := 0
def EFI_EXT_SCSI_DATA_DIRECTION_WRITE : Nat := 1
def EFI_EXT_SCSI_DATA_DIRECTION_BIDIRECTIONAL : Nat := 2

def EFI_EXT_SCSI_STATUS_HOST_ADAPTER_OK : Nat := 0x00
def EFI_EXT_SCSI_STATUS_HOST_ADAPTER_SELECTION_TIMEOUT : Nat := 0x11
def EFI_EXT_SCSI_STATUS_HOST_ADAPTER_OTHER : Nat := 0x7f

def EFI_EXT_SCSI_STATUS_TARGET_GOOD : Nat := 0x00
def EFI_EXT_SCSI_STATUS_TARGET_TASK_ABORTED : Nat := 0x40

-- FusionMptScsi.h register offsets and constants.
def MPT_REG_DOORBELL : Nat := 0x00
def MPT_REG_ISTATUS : Nat := 0x30
def MPT_REG_IMASK : Nat := 0x34
def MPT_REG_REQ_Q : Nat := 0x40
def MPT_REG_REP_Q : Nat := 0x44

def MPT_DOORBELL_RESET : Nat := 0x40
def MPT_DOORBELL_HANDSHAKE : Nat := 0x42

def MPT_IMASK_DOORBELL : Nat := 0x01
def MPT_IMASK_REPLY : Nat := 0x08

def MPT_MESSAGE_HDR_FUNCTION_SCSI_IO_REQUEST : Nat := 0x00
def MPT_SG_ENTRY_TYPE_SIMPLE : Nat := 0x01

def MPT_SCSIIO_REQUEST_CONTROL_TXDIR_NONE : Nat := 0x00 <<< 24
def MPT_SCSIIO_REQUEST_CONTROL_TXDIR_WRITE : Nat := 0x01 <<< 24
def MPT_SCSIIO_REQUEST_CONTROL_TXDIR_READ : Nat := 0x02 <<< 24

def MPT_SCSI_IO_ERROR_IOCSTATUS_DEVICE_NOT_THERE : Nat := 0x0043

/-- Byte offsets of the members of MPT_SCSI_DMA_BUFFER, as laid out by the C
compiler: IoErrorReply (size 40) at 0, IoRequest (size 64) at 40,
Sense (MAX_UINT8 = 255 bytes) at 104, Data (0x2000 bytes) at 359.
MPT_SCSI_DMA_ADDR(Dev, Member) is Dev.DmaPhysical + the member offset. -/
def mptOffsetOfIoErrorReply : Nat := 0
def mptOffsetOfIoRequest : Nat := 40
def mptOffsetOfSense : Nat := 104
def mptOffsetOfData : Nat := 359

/-- The size of the Data member of MPT_SCSI_DMA_BUFFER, 0x2000 = 8192 bytes. -/
def mptDmaDataSize : Nat := 0x2000

/-- EFI_EXT_SCSI_PASS_THRU_SCSI_REQUEST_PACKET; buffers are byte lists. -/
structure ScsiRequestPacket where
  InTransferLength : Nat
  OutTransferLength : Nat
  InDataBuffer : List Nat
  OutDataBuffer : List Nat
  SenseData : List Nat
  Cdb : List Nat
  CdbLength : Nat
  DataDirection : Nat
  HostAdapterStatus : Nat
  TargetStatus : Nat
  SenseDataLength : Nat
  deriving Repr, DecidableEq

/-- Header part of MPT_SCSI_IO_REQUEST (FusionMptScsi.h). LUN is the 8-byte
LUN array, CDB the 16-byte CDB array. -/
structure MptScsiIoRequestHeader where
  TargetID : Nat
  Bus : Nat
  ChainOffset : Nat
  Function : Nat
  CDBLength : Nat
  SenseBufferLength : Nat
  Reserved : Nat
  MessageFlags : Nat
  MessageContext : Nat
  LUN : List Nat
  Control : Nat
  CDB : List Nat
  DataLength : Nat
  SenseBufferLowAddress : Nat
  deriving Repr, DecidableEq

/-- MPT_SG_ENTRY_SIMPLE (FusionMptScsi.h). -/
structure MptSgEntrySimple where
  Length : Nat
  EndOfList : Nat
  Is64BitAddress : Nat
  BufferContainsData : Nat
  LocalAddress : Nat
  ElementType : Nat
  EndOfBuffer : Nat
  LastElement : Nat
  DataBufferAddress : Nat
  deriving Repr, DecidableEq

/-- MPT_SCSI_REQUEST_WITH_SG: the header followed by one SG element. -/
structure MptScsiRequestWithSg where
  Header : MptScsiIoRequestHeader
  Sg : MptSgEntrySimple
  deriving Repr, DecidableEq

/-- Data part of MPT_SCSI_IO_ERROR_REPLY (FusionMptScsi.h); the driver
itself only ever reads IOCStatus, the rest is hardware-written. -/
structure MptScsiIoErrorReply where
  TargetID : Nat
  Bus : Nat
  MessageLength : Nat
  Function : Nat
  CDBLength : Nat
  SenseBufferLength : Nat
  Reserved : Nat
  MessageFlags : Nat
  MessageContext : Nat
  SCSIStatus : Nat
  SCSIState : Nat
  IOCStatus : Nat
  IOCLogInfo : Nat
  TransferCount : Nat
  SenseCount : Nat
  ResponseInfo : Nat
  deriving Repr, DecidableEq

/-- MPT_SCSI_DMA_BUFFER: the driver-owned DMA region. -/
structure MptScsiDmaBuffer where
  IoErrorReply : MptScsiIoErrorReply
  IoRequest : MptScsiRequestWithSg
  Sense : List Nat
  Data : List Nat
  deriving Repr, DecidableEq

/-- The all-zero request frame produced by ZeroMem (Request, sizeof *Request). -/
def zeroMptScsiRequestWithSg : MptScsiRequestWithSg :=
  { Header := {
      TargetID := 0
      Bus := 0
      ChainOffset := 0
      Function := 0
      CDBLength := 0
      SenseBufferLength := 0
      Reserved := 0
      MessageFlags := 0
      MessageContext := 0
      LUN := List.replicate 8 0
      Control := 0
      CDB := List.replicate 16 0
      DataLength := 0
      SenseBufferLowAddress := 0 }
    Sg := {
      Length := 0
      EndOfList := 0
      Is64BitAddress := 0
      BufferContainsData := 0
      LocalAddress := 0
      ElementType := 0
      EndOfBuffer := 0
      LastElement := 0
      DataBufferAddress := 0 } }

/-- MptScsiPopulateRequest (MptScsi.c): validates the packet, then zeroes and
repopulates the resident request frame, sense area and (for writes) the DMA
data area. Returns the EFI status, the (possibly length-clamped) packet, and
the new DMA buffer contents. DmaPhysical is Dev.DmaPhysical. -/
def MptScsiPopulateRequest (DmaPhysical : Nat) (Target : Nat) (Lun : Nat)
    (Packet : ScsiRequestPacket) (Dma : MptScsiDmaBuffer) :
    Nat × ScsiRequestPacket × MptScsiDmaBuffer :=
  if Packet.DataDirection = EFI_EXT_SCSI_DATA_DIRECTION_BIDIRECTIONAL
      ∨ Packet.CdbLength > 16 then
    (EFI_UNSUPPORTED, Packet, Dma)
  else if Target > 0 ∨ Lun > 0 then
    (EFI_INVALID_PARAMETER, Packet, Dma)
  else if Packet.InTransferLength > mptDmaDataSize then
    (EFI_BAD_BUFFER_SIZE, { Packet with InTransferLength := mptDmaDataSize }, Dma)
  else if Packet.OutTransferLength > mptDmaDataSize then
    (EFI_BAD_BUFFER_SIZE, { Packet with OutTransferLength := mptDmaDataSize }, Dma)
  else
    let readXfer : Prop := Packet.DataDirection = EFI_EXT_SCSI_DATA_DIRECTION_READ
      ∧ Packet.InTransferLength ≠ 0
    let writeXfer : Prop := Packet.DataDirection = EFI_EXT_SCSI_DATA_DIRECTION_WRITE
      ∧ Packet.OutTransferLength ≠ 0
    let Request : MptScsiRequestWithSg :=
      { Header := { zeroMptScsiRequestWithSg.Header with
          TargetID := Target
          -- LUN byte index 1, not 0, mirroring the source quirk
          LUN := (List.replicate 8 0).set 1 Lun
          Function := MPT_MESSAGE_HDR_FUNCTION_SCSI_IO_REQUEST
          MessageContext := 1
          CDBLength := Packet.CdbLength
          CDB := Packet.Cdb.take Packet.CdbLength
            ++ List.replicate (16 - Packet.CdbLength) 0
          SenseBufferLength := Packet.SenseDataLength
          SenseBufferLowAddress := DmaPhysical + mptOffsetOfSense
          DataLength :=
            if readXfer then Packet.InTransferLength
            else if writeXfer then Packet.OutTransferLength
            else 0
          Control :=
            if readXfer then MPT_SCSIIO_REQUEST_CONTROL_TXDIR_READ
            else if writeXfer then MPT_SCSIIO_REQUEST_CONTROL_TXDIR_WRITE
            else MPT_SCSIIO_REQUEST_CONTROL_TXDIR_NONE }
        Sg := { zeroMptScsiRequestWithSg.Sg with
          EndOfList := 1
          EndOfBuffer := 1
          LastElement := 1
          ElementType := MPT_SG_ENTRY_TYPE_SIMPLE
          DataBufferAddress := DmaPhysical + mptOffsetOfData
          Length :=
            if readXfer then Packet.InTransferLength
            else if writeXfer then Packet.OutTransferLength
            else 0
          BufferContainsData := if writeXfer then 1 else 0 } }
    let NewSense : List Nat :=
      List.replicate Packet.SenseDataLength 0 ++ Dma.Sense.drop Packet.SenseDataLength
    let NewData : List Nat :=
      if writeXfer then
        Packet.OutDataBuffer.take Packet.OutTransferLength
          ++ Dma.Data.drop Packet.OutTransferLength
      else Dma.Data
    (EFI_SUCCESS, Packet,
      { Dma with IoRequest := Request, Sense := NewSense, Data := NewData })

/-- Behaviour oracle for the PCI register window of the device: readResp
answers the n-th In32 of an execution with (Status, value read); writeResp
answers the n-th Out32 with its Status. -/
structure MptDevBehavior where
  readResp : Nat → Nat → Nat × Nat
  writeResp : Nat → Nat → Nat → Nat

/-- The observable register traffic of an execution: how many In32 reads
happened so far and the ordered list of (address, data) pairs issued by
Out32. -/
structure IoTrace where
  readCount : Nat
  writes : List (Nat × Nat)
  deriving Repr, DecidableEq

/-- In32 (MptScsi.c): a 32-bit read of BAR0 at Addr; returns the EFI status,
the data read, and the advanced trace. -/
def In32 (Dev : MptDevBehavior) (Addr : Nat) (Tr : IoTrace) : Nat × Nat × IoTrace :=
  ((Dev.readResp Tr.readCount Addr).1, (Dev.readResp Tr.readCount Addr).2,
    { Tr with readCount := Tr.readCount + 1 })

/-- Out32 (MptScsi.c): a 32-bit write of Data to BAR0 at Addr; the bus
transaction is recorded on the trace whatever its status. -/
def Out32 (Dev : MptDevBehavior) (Addr : Nat) (Data : Nat) (Tr : IoTrace) :
    Nat × IoTrace :=
  (Dev.writeResp Tr.writes.length Addr Data,
    { Tr with writes := Tr.writes ++ [(Addr, Data)] })

/-- MptDoorbell (MptScsi.c): write (Func shl 24) or (Arg shl 16) to the
doorbell register. -/
def MptDoorbell (Dev : MptDevBehavior) (DoorbellFunc : Nat) (DoorbellArg : Nat)
    (Tr : IoTrace) : Nat × IoTrace :=
  Out32 Dev MPT_REG_DOORBELL ((DoorbellFunc <<< 24) ||| (DoorbellArg <<< 16)) Tr

/-- MptScsiReset (MptScsi.c): doorbell reset, mask doorbell and reply
interrupts, clear the interrupt status register; the first failing write
aborts and propagates its status. -/
def MptScsiReset (Dev : MptDevBehavior) (Tr : IoTrace) : Nat × IoTrace :=
  let r1 := MptDoorbell Dev MPT_DOORBELL_RESET 0 Tr
  if EFI_ERROR r1.1 then r1
  else
    let r2 := Out32 Dev MPT_REG_IMASK (MPT_IMASK_DOORBELL ||| MPT_IMASK_REPLY) r1.2
    if EFI_ERROR r2.1 then r2
    else
      let r3 := Out32 Dev MPT_REG_ISTATUS 0 r2.2
      if EFI_ERROR r3.1 then r3
      else (EFI_SUCCESS, r3.2)

/-- MptScsiSendRequest (MptScsi.c): post the request frame device address to
the request queue register; a write failure is reported as an adapter error
on the packet with EFI_DEVICE_ERROR. -/
def MptScsiSendRequest (Dev : MptDevBehavior) (DmaPhysical : Nat)
    (Packet : ScsiRequestPacket) (Tr : IoTrace) :
    Nat × ScsiRequestPacket × IoTrace :=
  let r := Out32 Dev MPT_REG_REQ_Q (DmaPhysical + mptOffsetOfIoRequest) Tr
  if EFI_ERROR r.1 then
    (EFI_DEVICE_ERROR,
      { Packet with
        InTransferLength := 0
        OutTransferLength := 0
        HostAdapterStatus := EFI_EXT_SCSI_STATUS_HOST_ADAPTER_OTHER
        TargetStatus := EFI_EXT_SCSI_STATUS_TARGET_GOOD
        SenseDataLength := 0 }, r.2)
  else (EFI_SUCCESS, Packet, r.2)

/-- The poll loop of MptScsiGetReply (MptScsi.c): read the interrupt status
register until a read fails (propagate its status) or the reply interrupt
bit is set (EFI_SUCCESS); fuel bounds the number of iterations modelled,
none meaning the loop was still running when the fuel ran out. -/
def MptScsiGetReplyLoop (Dev : MptDevBehavior) :
    Nat → IoTrace → Option (Nat × IoTrace)
  | 0, _ => none
  | fuel + 1, Tr =>
    let r := In32 Dev MPT_REG_ISTATUS Tr
    if EFI_ERROR r.1 then some (r.1, r.2.2)
    else if r.2.1 &&& MPT_IMASK_REPLY ≠ 0 then some (EFI_SUCCESS, r.2.2)
    else MptScsiGetReplyLoop Dev fuel r.2.2

/-- MptScsiGetReply (MptScsi.c): poll for the reply interrupt, read the
reply queue register for the reply token, then read it again and demand the
all-ones sentinel; returns (Status, Reply, trace). -/
def MptScsiGetReply (Dev : MptDevBehavior) (fuel : Nat) (Tr : IoTrace) :
    Option (Nat × Nat × IoTrace) :=
  match MptScsiGetReplyLoop Dev fuel Tr with
  | none => none
  | some (s, Tr1) =>
    if EFI_ERROR s then some (s, 0, Tr1)
    else
      let r1 := In32 Dev MPT_REG_REP_Q Tr1
      if EFI_ERROR r1.1 then some (r1.1, r1.2.1, r1.2.2)
      else
        let r2 := In32 Dev MPT_REG_REP_Q r1.2.2
        if EFI_ERROR r2.1 ∨ r2.2.1 ≠ MAX_UINT32 then
          some (EFI_DEVICE_ERROR, r1.2.1, r2.2.2)
        else some (EFI_SUCCESS, r1.2.1, r2.2.2)

/-- MptScsiHandleReply (MptScsi.c): copy staged sense data (and, for reads,
staged data) into the caller's buffers, then classify the reply token:
message-context echo is success, top bit set is an error frame whose
IOCStatus selects the host adapter status and whose frame is re-posted to
the reply queue, anything else is an unexpected reply. -/
def MptScsiHandleReply (Dev : MptDevBehavior) (DmaPhysical : Nat) (Reply : Nat)
    (Packet : ScsiRequestPacket) (Dma : MptScsiDmaBuffer) (Tr : IoTrace) :
    Nat × ScsiRequestPacket × IoTrace :=
  let P1 := { Packet with
    SenseData := Dma.Sense.take Packet.SenseDataLength
      ++ Packet.SenseData.drop Packet.SenseDataLength }
  let P2 :=
    if P1.DataDirection = EFI_EXT_SCSI_DATA_DIRECTION_READ then
      { P1 with InDataBuffer := Dma.Data.take P1.InTransferLength
          ++ P1.InDataBuffer.drop P1.InTransferLength }
    else P1
  if Reply = Dma.IoRequest.Header.MessageContext then
    (EFI_SUCCESS,
      { P2 with
        HostAdapterStatus := EFI_EXT_SCSI_STATUS_HOST_ADAPTER_OK
        TargetStatus := EFI_EXT_SCSI_STATUS_TARGET_GOOD }, Tr)
  else if Reply &&& (1 <<< 31) ≠ 0 then
    let P3 := { P2 with HostAdapterStatus :=
      if Dma.IoErrorReply.IOCStatus = MPT_SCSI_IO_ERROR_IOCSTATUS_DEVICE_NOT_THERE
      then EFI_EXT_SCSI_STATUS_HOST_ADAPTER_SELECTION_TIMEOUT
      else EFI_EXT_SCSI_STATUS_HOST_ADAPTER_OTHER }
    let r := Out32 Dev MPT_REG_REP_Q (DmaPhysical + mptOffsetOfIoErrorReply) Tr
    if EFI_ERROR r.1 then (r.1, P3, r.2)
    else (EFI_SUCCESS, P3, r.2)
  else
    (EFI_DEVICE_ERROR, P2, Tr)

/-- The Fatal label of MptScsiPassThru (MptScsi.c): zero both transfer
lengths, force the host adapter status to OTHER unless already non-OK,
force target status to task-aborted, zero the sense length. -/
def MptScsiFatalFinish (Packet : ScsiRequestPacket) : ScsiRequestPacket :=
  { Packet with
    InTransferLength := 0
    OutTransferLength := 0
    HostAdapterStatus :=
      if Packet.HostAdapterStatus = EFI_EXT_SCSI_STATUS_HOST_ADAPTER_OK
      then EFI_EXT_SCSI_STATUS_HOST_ADAPTER_OTHER
      else Packet.HostAdapterStatus
    TargetStatus := EFI_EXT_SCSI_STATUS_TARGET_TASK_ABORTED
    SenseDataLength := 0 }

/-- MptScsiPassThru (MptScsi.c): populate, submit, poll for and handle the
reply; failures after submission fall through to the Fatal label and return
EFI_DEVICE_ERROR. Result: (Status, packet, DMA buffer, trace); none means
the poll loop outran the fuel. -/
def MptScsiPassThru (Dev : MptDevBehavior) (DmaPhysical : Nat) (Target : Nat)
    (Lun : Nat) (Packet : ScsiRequestPacket) (Dma : MptScsiDmaBuffer)
    (fuel : Nat) (Tr : IoTrace) :
    Option (Nat × ScsiRequestPacket × MptScsiDmaBuffer × IoTrace) :=
  let p := MptScsiPopulateRequest DmaPhysical Target Lun Packet Dma
  if EFI_ERROR p.1 then some (p.1, p.2.1, p.2.2, Tr)
  else
    let s := MptScsiSendRequest Dev DmaPhysical p.2.1 Tr
    if EFI_ERROR s.1 then some (s.1, s.2.1, p.2.2, s.2.2)
    else
      let P3 := { s.2.1 with
        HostAdapterStatus := EFI_EXT_SCSI_STATUS_HOST_ADAPTER_OK }
      match MptScsiGetReply Dev fuel s.2.2 with
      | none => none
      | some (gs, Reply, Tr4) =>
        if EFI_ERROR gs then
          some (EFI_DEVICE_ERROR, MptScsiFatalFinish P3, p.2.2, Tr4)
        else
          let h := MptScsiHandleReply Dev DmaPhysical Reply P3 p.2.2 Tr4
          if EFI_ERROR h.1 then
            some (EFI_DEVICE_ERROR, MptScsiFatalFinish h.2.1, p.2.2, h.2.2)
          else some (h.1, h.2.1, p.2.2, h.2.2)

/-- Semantics of a write trace on a register file: later writes win. -/
def ApplyWrites (Writes : List (Nat × Nat)) (Regs : Nat → Nat) : Nat → Nat :=
  Writes.foldl (fun R W => fun A => if A = W.1 then W.2 else R A) Regs

/-- A concrete all-zero error reply frame, for witnesses. -/
def sampleErrorReply : MptScsiIoErrorReply :=
  { TargetID := 0, Bus := 0, MessageLength := 0, Function := 0,
    CDBLength := 0, SenseBufferLength := 0, Reserved := 0,
    MessageFlags := 0, MessageContext := 0, SCSIStatus := 0,
    SCSIState := 0, IOCStatus := 0, IOCLogInfo := 0,
    TransferCount := 0, SenseCount := 0, ResponseInfo := 0 }

/-- A concrete DMA buffer with recognizable sense and data bytes, for
witnesses. -/
def sampleDma : MptScsiDmaBuffer :=
  { IoErrorReply := sampleErrorReply
    IoRequest := zeroMptScsiRequestWithSg
    Sense := List.replicate 255 7
    Data := List.replicate 8192 9 }

/-- A concrete INQUIRY-shaped read packet, for witnesses. -/
def samplePacket : ScsiRequestPacket :=
  { InTransferLength := 36
    OutTransferLength := 0
    InDataBuffer := List.replicate 36 1
    OutDataBuffer := []
    SenseData := List.replicate 18 2
    Cdb := [0x12, 0, 0, 0, 36, 0]
    CdbLength := 6
    DataDirection := EFI_EXT_SCSI_DATA_DIRECTION_READ
    HostAdapterStatus := 0
    TargetStatus := 0
    SenseDataLength := 18 }

/-- C1: for every generic SCSI request packet with target 0, LUN 0, a
non-bidirectional data direction, CDB length at most 16, and input/output
transfer lengths at most 8192 bytes, MptScsiPopulateRequest returns
EFI_SUCCESS and the populated request frame carries exactly the packet's CDB
bytes, CDB length, and the data length and direction control dictated by the
packet's direction and transfer lengths. -/
theorem mptScsiPopulateRequest_valid_request (DmaPhysical : Nat)
    (Packet : ScsiRequestPacket) (Dma : MptScsiDmaBuffer)
    (hdir : Packet.DataDirection ≠ EFI_EXT_SCSI_DATA_DIRECTION_BIDIRECTIONAL)
    (hcdb : Packet.CdbLength ≤ 16)
    (hin : Packet.InTransferLength ≤ 8192)
    (hout : Packet.OutTransferLength ≤ 8192) :
    (MptScsiPopulateRequest DmaPhysical 0 0 Packet Dma).1 = EFI_SUCCESS ∧
    (MptScsiPopulateRequest DmaPhysical 0 0 Packet Dma).2.2.IoRequest.Header.CDB
      = Packet.Cdb.take Packet.CdbLength
        ++ List.replicate (16 - Packet.CdbLength) 0 ∧
    (MptScsiPopulateRequest DmaPhysical 0 0 Packet Dma).2.2.IoRequest.Header.CDBLength
      = Packet.CdbLength ∧
    (MptScsiPopulateRequest DmaPhysical 0 0 Packet Dma).2.2.IoRequest.Header.DataLength
      = (if Packet.DataDirection = EFI_EXT_SCSI_DATA_DIRECTION_READ
            ∧ Packet.InTransferLength ≠ 0 then Packet.InTransferLength
         else if Packet.DataDirection = EFI_EXT_SCSI_DATA_DIRECTION_WRITE
            ∧ Packet.OutTransferLength ≠ 0 then Packet.OutTransferLength
         else 0) ∧
    (MptScsiPopulateRequest DmaPhysical 0 0 Packet Dma).2.2.IoRequest.Header.Control
      = (if Packet.DataDirection = EFI_EXT_SCSI_DATA_DIRECTION_READ
            ∧ Packet.InTransferLength ≠ 0 then
           MPT_SCSIIO_REQUEST_CONTROL_TXDIR_READ
         else if Packet.DataDirection = EFI_EXT_SCSI_DATA_DIRECTION_WRITE
            ∧ Packet.OutTransferLength ≠ 0 then
           MPT_SCSIIO_REQUEST_CONTROL_TXDIR_WRITE
         else MPT_SCSIIO_REQUEST_CONTROL_TXDIR_NONE) := by
  have h1 : ¬(Packet.DataDirection = EFI_EXT_SCSI_DATA_DIRECTION_BIDIRECTIONAL
      ∨ Packet.CdbLength > 16) := by
    push_neg
    exact ⟨hdir, by omega⟩
  have h2 : ¬((0 : Nat) > 0 ∨ (0 : Nat) > 0) := by omega
  have h3 : ¬(Packet.InTransferLength > mptDmaDataSize) := by
    unfold mptDmaDataSize
    omega
  have h4 : ¬(Packet.OutTransferLength > mptDmaDataSize) := by
    unfold mptDmaDataSize
    omega
  simp only [MptScsiPopulateRequest, if_neg h1, if_neg h2, if_neg h3, if_neg h4]
  exact ⟨trivial, trivial, trivial, trivial, trivial⟩

/-- Witness for C1: the theorem applied to a concrete read request. -/
theorem mptScsiPopulateRequest_valid_request_witness :
    (MptScsiPopulateRequest 0x1000 0 0 samplePacket sampleDma).1 = EFI_SUCCESS ∧
    (MptScsiPopulateRequest 0x1000 0 0 samplePacket sampleDma).2.2.IoRequest.Header.CDB
      = samplePacket.Cdb.take samplePacket.CdbLength
        ++ List.replicate (16 - samplePacket.CdbLength) 0 ∧
    (MptScsiPopulateRequest 0x1000 0 0 samplePacket sampleDma).2.2.IoRequest.Header.CDBLength
      = samplePacket.CdbLength ∧
    (MptScsiPopulateRequest 0x1000 0 0 samplePacket sampleDma).2.2.IoRequest.Header.DataLength
      = (if samplePacket.DataDirection = EFI_EXT_SCSI_DATA_DIRECTION_READ
            ∧ samplePacket.InTransferLength ≠ 0 then samplePacket.InTransferLength
         else if samplePacket.DataDirection = EFI_EXT_SCSI_DATA_DIRECTION_WRITE
            ∧ samplePacket.OutTransferLength ≠ 0 then samplePacket.OutTransferLength
         else 0) ∧
    (MptScsiPopulateRequest 0x1000 0 0 samplePacket sampleDma).2.2.IoRequest.Header.Control
      = (if samplePacket.DataDirection = EFI_EXT_SCSI_DATA_DIRECTION_READ
            ∧ samplePacket.InTransferLength ≠ 0 then
           MPT_SCSIIO_REQUEST_CONTROL_TXDIR_READ
         else if samplePacket.DataDirection = EFI_EXT_SCSI_DATA_DIRECTION_WRITE
            ∧ samplePacket.OutTransferLength ≠ 0 then
           MPT_SCSIIO_REQUEST_CONTROL_TXDIR_WRITE
         else MPT_SCSIIO_REQUEST_CONTROL_TXDIR_NONE) :=
  mptScsiPopulateRequest_valid_request 0x1000 samplePacket sampleDma
    (by decide) (by decide) (by decide) (by decide)

/-- A concrete bidirectional packet with oversize transfer lengths: it hits
the direction check of MptScsiPopulateRequest before the target/LUN and
length checks are ever reached. -/
def cexBidiPacket : ScsiRequestPacket :=
  { InTransferLength := 9000
    OutTransferLength := 9000
    InDataBuffer := []
    OutDataBuffer := []
    SenseData := []
    Cdb := [0]
    CdbLength := 1
    DataDirection := EFI_EXT_SCSI_DATA_DIRECTION_BIDIRECTIONAL
    HostAdapterStatus := 0
    TargetStatus := 0
    SenseDataLength := 0 }

/-- Counterexample for C6: a packet with Target = 1 whose direction is
bidirectional is rejected with EFI_UNSUPPORTED, not EFI_INVALID_PARAMETER,
because the direction check precedes the target/LUN check. -/
theorem mptScsiPopulateRequest_target_one_bidi_unsupported :
    (MptScsiPopulateRequest 0x1000 1 0 cexBidiPacket sampleDma).1
      = EFI_UNSUPPORTED ∧ EFI_UNSUPPORTED ≠ EFI_INVALID_PARAMETER :=
  ⟨rfl, by decide⟩

/-- C6 (amended): for every packet that passes the direction/CDB-size check
(non-bidirectional, CDB length at most 16), a target other than 0 or a LUN
other than 0 makes MptScsiPopulateRequest fail with EFI_INVALID_PARAMETER,
with the packet and the whole DMA buffer (in particular the resident request
frame) unchanged. -/
theorem mptScsiPopulateRequest_bad_address_rejected (DmaPhysical : Nat)
    (Target : Nat) (Lun : Nat) (Packet : ScsiRequestPacket)
    (Dma : MptScsiDmaBuffer)
    (hdir : Packet.DataDirection ≠ EFI_EXT_SCSI_DATA_DIRECTION_BIDIRECTIONAL)
    (hcdb : Packet.CdbLength ≤ 16)
    (haddr : Target > 0 ∨ Lun > 0) :
    MptScsiPopulateRequest DmaPhysical Target Lun Packet Dma
      = (EFI_INVALID_PARAMETER, Packet, Dma) := by
  have h1 : ¬(Packet.DataDirection = EFI_EXT_SCSI_DATA_DIRECTION_BIDIRECTIONAL
      ∨ Packet.CdbLength > 16) := by
    push_neg
    exact ⟨hdir, by omega⟩
  simp only [MptScsiPopulateRequest, if_neg h1, if_pos haddr]

/-- Witness for C6 (amended): target 1 with a well-formed read packet. -/
theorem mptScsiPopulateRequest_bad_address_rejected_witness :
    MptScsiPopulateRequest 0x1000 1 0 samplePacket sampleDma
      = (EFI_INVALID_PARAMETER, samplePacket, sampleDma) :=
  mptScsiPopulateRequest_bad_address_rejected 0x1000 1 0 samplePacket
    sampleDma (by decide) (by decide) (Or.inl (by decide))

/-- Counterexample for C5: a bidirectional packet with input transfer length
9000 > 8192 is rejected with EFI_UNSUPPORTED, not the buffer-size error, and
its InTransferLength stays 9000 unclamped. -/
theorem mptScsiPopulateRequest_oversize_bidi_not_clamped :
    (MptScsiPopulateRequest 0x1000 0 0 cexBidiPacket sampleDma).1
      = EFI_UNSUPPORTED ∧
    EFI_UNSUPPORTED ≠ EFI_BAD_BUFFER_SIZE ∧
    (MptScsiPopulateRequest 0x1000 0 0 cexBidiPacket sampleDma).2.1.InTransferLength
      = 9000 :=
  ⟨rfl, by decide, rfl⟩

/-- C5 (amended): for every packet that passes the direction/CDB-size check
(non-bidirectional, CDB length at most 16), targeting (0,0), whose input or
output transfer length exceeds 8192 bytes, the whole MptScsiPassThru call
returns EFI_BAD_BUFFER_SIZE with the offending length field (input first)
truncated to 8192, the DMA buffer untouched, and no register access at all
(the trace is returned unchanged, so nothing was submitted to hardware). -/
theorem mptScsiPassThru_oversize_clamps_and_skips_hardware
    (Dev : MptDevBehavior) (DmaPhysical : Nat) (Packet : ScsiRequestPacket)
    (Dma : MptScsiDmaBuffer) (fuel : Nat) (Tr : IoTrace)
    (hdir : Packet.DataDirection ≠ EFI_EXT_SCSI_DATA_DIRECTION_BIDIRECTIONAL)
    (hcdb : Packet.CdbLength ≤ 16)
    (hlen : Packet.InTransferLength > 8192 ∨ Packet.OutTransferLength > 8192) :
    MptScsiPassThru Dev DmaPhysical 0 0 Packet Dma fuel Tr
      = some (EFI_BAD_BUFFER_SIZE,
          (if Packet.InTransferLength > 8192 then
            { Packet with InTransferLength := 8192 }
          else
            { Packet with OutTransferLength := 8192 }),
          Dma, Tr) := by
  have h1 : ¬(Packet.DataDirection = EFI_EXT_SCSI_DATA_DIRECTION_BIDIRECTIONAL
      ∨ Packet.CdbLength > 16) := by
    push_neg
    exact ⟨hdir, by omega⟩
  have h2 : ¬((0 : Nat) > 0 ∨ (0 : Nat) > 0) := by omega
  by_cases hin : Packet.InTransferLength > 8192
  · have hp : MptScsiPopulateRequest DmaPhysical 0 0 Packet Dma
        = (EFI_BAD_BUFFER_SIZE, { Packet with InTransferLength := 8192 }, Dma) := by
      simp only [MptScsiPopulateRequest, if_neg h1, if_neg h2]
      rw [if_pos (by unfold mptDmaDataSize; omega)]
      rfl
    simp only [MptScsiPassThru, hp, if_pos hin]
    rw [if_pos (by decide : EFI_ERROR EFI_BAD_BUFFER_SIZE = true)]
  · have hout : Packet.OutTransferLength > 8192 := by omega
    have hp : MptScsiPopulateRequest DmaPhysical 0 0 Packet Dma
        = (EFI_BAD_BUFFER_SIZE, { Packet with OutTransferLength := 8192 }, Dma) := by
      simp only [MptScsiPopulateRequest, if_neg h1, if_neg h2]
      rw [if_neg (by unfold mptDmaDataSize; omega),
        if_pos (by unfold mptDmaDataSize; omega)]
      rfl
    simp only [MptScsiPassThru, hp, if_neg hin]
    rw [if_pos (by decide : EFI_ERROR EFI_BAD_BUFFER_SIZE = true)]

/-- A concrete non-bidirectional write packet with both transfer lengths
oversize, for the clamp-order theorems. -/
def oversizePacket : ScsiRequestPacket :=
  { cexBidiPacket with DataDirection := EFI_EXT_SCSI_DATA_DIRECTION_WRITE }

/-- A device behaviour that is never consulted: every access fails. -/
def devUnused : MptDevBehavior :=
  { readResp := fun _ _ => (EFI_DEVICE_ERROR, 0)
    writeResp := fun _ _ _ => EFI_DEVICE_ERROR }

/-- Witness for C5 (amended): a write packet with both lengths 9000. -/
theorem mptScsiPassThru_oversize_clamps_and_skips_hardware_witness :
    MptScsiPassThru devUnused 0x1000 0 0 oversizePacket sampleDma 3
        { readCount := 0, writes := [] }
      = some (EFI_BAD_BUFFER_SIZE,
          (if oversizePacket.InTransferLength > 8192 then
            { oversizePacket with InTransferLength := 8192 }
          else
            { oversizePacket with OutTransferLength := 8192 }),
          sampleDma, { readCount := 0, writes := [] }) :=
  mptScsiPassThru_oversize_clamps_and_skips_hardware devUnused 0x1000
    oversizePacket sampleDma 3 { readCount := 0, writes := [] }
    (by decide) (by decide) (Or.inl (by decide))

/-- Counterexample for C10: a bidirectional packet with both transfer
lengths 9000 > 8192 is rejected with EFI_UNSUPPORTED before any clamping, so
neither the claimed clamp of InTransferLength to 8192 nor the buffer-size
error happens. -/
theorem mptScsiPopulateRequest_both_oversize_bidi_not_clamped :
    (MptScsiPopulateRequest 0x1000 0 0 cexBidiPacket sampleDma).2.1.InTransferLength
      = 9000 ∧ (9000 : Nat) ≠ 8192 ∧
    (MptScsiPopulateRequest 0x1000 0 0 cexBidiPacket sampleDma).1
      ≠ EFI_BAD_BUFFER_SIZE :=
  ⟨rfl, by decide, by decide⟩

/-- C10 (amended): for every packet that passes the direction/CDB-size check
(non-bidirectional, CDB length at most 16), targeting (0,0): when both
transfer lengths exceed 8192, MptScsiPopulateRequest clamps only
InTransferLength and returns the buffer-size error at once, leaving
OutTransferLength at its oversize value; OutTransferLength is clamped only
when InTransferLength is already within bounds. -/
theorem mptScsiPopulateRequest_clamp_order (DmaPhysical : Nat)
    (Packet : ScsiRequestPacket) (Dma : MptScsiDmaBuffer)
    (hdir : Packet.DataDirection ≠ EFI_EXT_SCSI_DATA_DIRECTION_BIDIRECTIONAL)
    (hcdb : Packet.CdbLength ≤ 16) :
    (Packet.InTransferLength > 8192 → Packet.OutTransferLength > 8192 →
      MptScsiPopulateRequest DmaPhysical 0 0 Packet Dma
        = (EFI_BAD_BUFFER_SIZE, { Packet with InTransferLength := 8192 }, Dma) ∧
      (MptScsiPopulateRequest DmaPhysical 0 0 Packet Dma).2.1.OutTransferLength
        = Packet.OutTransferLength) ∧
    (Packet.InTransferLength ≤ 8192 → Packet.OutTransferLength > 8192 →
      MptScsiPopulateRequest DmaPhysical 0 0 Packet Dma
        = (EFI_BAD_BUFFER_SIZE, { Packet with OutTransferLength := 8192 }, Dma)) := by
  have h1 : ¬(Packet.DataDirection = EFI_EXT_SCSI_DATA_DIRECTION_BIDIRECTIONAL
      ∨ Packet.CdbLength > 16) := by
    push_neg
    exact ⟨hdir, by omega⟩
  have h2 : ¬((0 : Nat) > 0 ∨ (0 : Nat) > 0) := by omega
  constructor
  · intro hin _
    have hp : MptScsiPopulateRequest DmaPhysical 0 0 Packet Dma
        = (EFI_BAD_BUFFER_SIZE, { Packet with InTransferLength := 8192 }, Dma) := by
      simp only [MptScsiPopulateRequest, if_neg h1, if_neg h2]
      rw [if_pos (by unfold mptDmaDataSize; omega)]
      rfl
    exact ⟨hp, by rw [hp]⟩
  · intro hin hout
    simp only [MptScsiPopulateRequest, if_neg h1, if_neg h2]
    rw [if_neg (by unfold mptDmaDataSize; omega),
      if_pos (by unfold mptDmaDataSize; omega)]
    rfl

/-- Witness for C10 (amended): both lengths 9000 on a write packet. -/
theorem mptScsiPopulateRequest_clamp_order_witness :
    (oversizePacket.InTransferLength > 8192 → oversizePacket.OutTransferLength > 8192 →
      MptScsiPopulateRequest 0x1000 0 0 oversizePacket sampleDma
        = (EFI_BAD_BUFFER_SIZE, { oversizePacket with InTransferLength := 8192 },
            sampleDma) ∧
      (MptScsiPopulateRequest 0x1000 0 0 oversizePacket sampleDma).2.1.OutTransferLength
        = oversizePacket.OutTransferLength) ∧
    (oversizePacket.InTransferLength ≤ 8192 → oversizePacket.OutTransferLength > 8192 →
      MptScsiPopulateRequest 0x1000 0 0 oversizePacket sampleDma
        = (EFI_BAD_BUFFER_SIZE, { oversizePacket with OutTransferLength := 8192 },
            sampleDma)) :=
  mptScsiPopulateRequest_clamp_order 0x1000 oversizePacket sampleDma
    (by decide) (by decide)

/-- C7: for every reply token equal to the resident request frame's
MessageContext, MptScsiHandleReply returns EFI_SUCCESS, sets the packet's
host adapter status to OK and target status to good, and copies
SenseDataLength bytes of staged sense data (and, for read-direction
requests, InTransferLength bytes of staged data) into the caller's
buffers. -/
theorem mptScsiHandleReply_context_echo_success (Dev : MptDevBehavior)
    (DmaPhysical : Nat) (Reply : Nat) (Packet : ScsiRequestPacket)
    (Dma : MptScsiDmaBuffer) (Tr : IoTrace)
    (hctx : Reply = Dma.IoRequest.Header.MessageContext) :
    (MptScsiHandleReply Dev DmaPhysical Reply Packet Dma Tr).1 = EFI_SUCCESS ∧
    (MptScsiHandleReply Dev DmaPhysical Reply Packet Dma Tr).2.1.HostAdapterStatus
      = EFI_EXT_SCSI_STATUS_HOST_ADAPTER_OK ∧
    (MptScsiHandleReply Dev DmaPhysical Reply Packet Dma Tr).2.1.TargetStatus
      = EFI_EXT_SCSI_STATUS_TARGET_GOOD ∧
    (MptScsiHandleReply Dev DmaPhysical Reply Packet Dma Tr).2.1.SenseData
      = Dma.Sense.take Packet.SenseDataLength
        ++ Packet.SenseData.drop Packet.SenseDataLength ∧
    (Packet.DataDirection = EFI_EXT_SCSI_DATA_DIRECTION_READ →
      (MptScsiHandleReply Dev DmaPhysical Reply Packet Dma Tr).2.1.InDataBuffer
        = Dma.Data.take Packet.InTransferLength
          ++ Packet.InDataBuffer.drop Packet.InTransferLength) := by
  by_cases hread : Packet.DataDirection = EFI_EXT_SCSI_DATA_DIRECTION_READ
  · simp only [MptScsiHandleReply, if_pos hctx, if_pos hread]
    refine ⟨?_, ?_, ?_, ?_, ?_⟩ <;>
      first
        | trivial
        | exact fun h => trivial
  · simp only [MptScsiHandleReply, if_pos hctx, if_neg hread]
    refine ⟨?_, ?_, ?_, ?_, ?_⟩ <;>
      first
        | trivial
        | exact fun h => trivial
        | exact fun h => absurd h hread

/-- Witness for C7: the context-echo reply 1 on a staged read request. -/
theorem mptScsiHandleReply_context_echo_success_witness :
    (MptScsiHandleReply devUnused 0x1000 0 samplePacket sampleDma
        { readCount := 0, writes := [] }).1 = EFI_SUCCESS ∧
    (MptScsiHandleReply devUnused 0x1000 0 samplePacket sampleDma
        { readCount := 0, writes := [] }).2.1.HostAdapterStatus
      = EFI_EXT_SCSI_STATUS_HOST_ADAPTER_OK ∧
    (MptScsiHandleReply devUnused 0x1000 0 samplePacket sampleDma
        { readCount := 0, writes := [] }).2.1.TargetStatus
      = EFI_EXT_SCSI_STATUS_TARGET_GOOD ∧
    (MptScsiHandleReply devUnused 0x1000 0 samplePacket sampleDma
        { readCount := 0, writes := [] }).2.1.SenseData
      = sampleDma.Sense.take samplePacket.SenseDataLength
        ++ samplePacket.SenseData.drop samplePacket.SenseDataLength ∧
    (samplePacket.DataDirection = EFI_EXT_SCSI_DATA_DIRECTION_READ →
      (MptScsiHandleReply devUnused 0x1000 0 samplePacket sampleDma
          { readCount := 0, writes := [] }).2.1.InDataBuffer
        = sampleDma.Data.take samplePacket.InTransferLength
          ++ samplePacket.InDataBuffer.drop samplePacket.InTransferLength) :=
  mptScsiHandleReply_context_echo_success devUnused 0x1000 0 samplePacket
    sampleDma { readCount := 0, writes := [] } (by decide)

/-- C2: for every reply token with bit 31 set, under the driver's invariant
that the resident request frame's MessageContext is 1 (as
MptScsiPopulateRequest always writes), MptScsiHandleReply classifies by the
resident error reply frame's IOCStatus (device-not-there maps to the
selection-timeout host adapter status, anything else to the generic OTHER
status), re-posts the error reply frame's device address to the reply queue
register, and still performs the sense (and, for reads, data) copy into the
caller's buffers. -/
theorem mptScsiHandleReply_error_frame (Dev : MptDevBehavior)
    (DmaPhysical : Nat) (Reply : Nat) (Packet : ScsiRequestPacket)
    (Dma : MptScsiDmaBuffer) (Tr : IoTrace)
    (hmc : Dma.IoRequest.Header.MessageContext = 1)
    (hbit : Reply &&& (1 <<< 31) ≠ 0) :
    (MptScsiHandleReply Dev DmaPhysical Reply Packet Dma Tr).2.1.HostAdapterStatus
      = (if Dma.IoErrorReply.IOCStatus = MPT_SCSI_IO_ERROR_IOCSTATUS_DEVICE_NOT_THERE
         then EFI_EXT_SCSI_STATUS_HOST_ADAPTER_SELECTION_TIMEOUT
         else EFI_EXT_SCSI_STATUS_HOST_ADAPTER_OTHER) ∧
    (MptScsiHandleReply Dev DmaPhysical Reply Packet Dma Tr).2.2.writes
      = Tr.writes ++ [(MPT_REG_REP_Q, DmaPhysical + mptOffsetOfIoErrorReply)] ∧
    (MptScsiHandleReply Dev DmaPhysical Reply Packet Dma Tr).2.1.SenseData
      = Dma.Sense.take Packet.SenseDataLength
        ++ Packet.SenseData.drop Packet.SenseDataLength ∧
    (Packet.DataDirection = EFI_EXT_SCSI_DATA_DIRECTION_READ →
      (MptScsiHandleReply Dev DmaPhysical Reply Packet Dma Tr).2.1.InDataBuffer
        = Dma.Data.take Packet.InTransferLength
          ++ Packet.InDataBuffer.drop Packet.InTransferLength) := by
  have hne : ¬(Reply = Dma.IoRequest.Header.MessageContext) := by
    rw [hmc]
    intro h
    subst h
    exact hbit (by decide)
  by_cases hread : Packet.DataDirection = EFI_EXT_SCSI_DATA_DIRECTION_READ
  · by_cases hw : EFI_ERROR (Dev.writeResp Tr.writes.length MPT_REG_REP_Q
        (DmaPhysical + mptOffsetOfIoErrorReply)) = true
    · simp only [MptScsiHandleReply, Out32, if_neg hne, if_pos hbit,
        if_pos hread, if_pos hw]
      refine ⟨?_, ?_, ?_, ?_⟩ <;>
        first
          | trivial
          | exact fun h => trivial
    · simp only [MptScsiHandleReply, Out32, if_neg hne, if_pos hbit,
        if_pos hread, if_neg hw]
      refine ⟨?_, ?_, ?_, ?_⟩ <;>
        first
          | trivial
          | exact fun h => trivial
  · by_cases hw : EFI_ERROR (Dev.writeResp Tr.writes.length MPT_REG_REP_Q
        (DmaPhysical + mptOffsetOfIoErrorReply)) = true
    · simp only [MptScsiHandleReply, Out32, if_neg hne, if_pos hbit,
        if_neg hread, if_pos hw]
      refine ⟨?_, ?_, ?_, ?_⟩ <;>
        first
          | trivial
          | exact fun h => trivial
          | exact fun h => absurd h hread
    · simp only [MptScsiHandleReply, Out32, if_neg hne, if_pos hbit,
        if_neg hread, if_neg hw]
      refine ⟨?_, ?_, ?_, ?_⟩ <;>
        first
          | trivial
          | exact fun h => trivial
          | exact fun h => absurd h hread

/-- A DMA buffer whose resident error reply frame reports the
device-not-there IOCStatus and whose request frame carries the populated
MessageContext 1. -/
def sampleDmaNotThere : MptScsiDmaBuffer :=
  { sampleDma with
    IoErrorReply := { sampleErrorReply with
      IOCStatus := MPT_SCSI_IO_ERROR_IOCSTATUS_DEVICE_NOT_THERE }
    IoRequest := { zeroMptScsiRequestWithSg with
      Header := { zeroMptScsiRequestWithSg.Header with MessageContext := 1 } } }

/-- Witness for C2: the error-frame reply token 0x80000000 against a
device-not-there error reply frame. -/
theorem mptScsiHandleReply_error_frame_witness :
    (MptScsiHandleReply devUnused 0x1000 0x80000000 samplePacket
        sampleDmaNotThere { readCount := 0, writes := [] }).2.1.HostAdapterStatus
      = (if sampleDmaNotThere.IoErrorReply.IOCStatus
            = MPT_SCSI_IO_ERROR_IOCSTATUS_DEVICE_NOT_THERE
         then EFI_EXT_SCSI_STATUS_HOST_ADAPTER_SELECTION_TIMEOUT
         else EFI_EXT_SCSI_STATUS_HOST_ADAPTER_OTHER) ∧
    (MptScsiHandleReply devUnused 0x1000 0x80000000 samplePacket
        sampleDmaNotThere { readCount := 0, writes := [] }).2.2.writes
      = ([] : List (Nat × Nat))
        ++ [(MPT_REG_REP_Q, 0x1000 + mptOffsetOfIoErrorReply)] ∧
    (MptScsiHandleReply devUnused 0x1000 0x80000000 samplePacket
        sampleDmaNotThere { readCount := 0, writes := [] }).2.1.SenseData
      = sampleDmaNotThere.Sense.take samplePacket.SenseDataLength
        ++ samplePacket.SenseData.drop samplePacket.SenseDataLength ∧
    (samplePacket.DataDirection = EFI_EXT_SCSI_DATA_DIRECTION_READ →
      (MptScsiHandleReply devUnused 0x1000 0x80000000 samplePacket
          sampleDmaNotThere { readCount := 0, writes := [] }).2.1.InDataBuffer
        = sampleDmaNotThere.Data.take samplePacket.InTransferLength
          ++ samplePacket.InDataBuffer.drop samplePacket.InTransferLength) :=
  mptScsiHandleReply_error_frame devUnused 0x1000 0x80000000 samplePacket
    sampleDmaNotThere { readCount := 0, writes := [] } (by decide) (by decide)

/-- C4: whenever the poll loop has observed the reply interrupt, the first
reply queue read succeeds with any value at all, and the second reply queue
read produces any value other than the all-ones sentinel, MptScsiGetReply
returns the fatal EFI_DEVICE_ERROR status. -/
theorem mptScsiGetReply_bad_second_read (Dev : MptDevBehavior) (fuel : Nat)
    (Tr Tr1 : IoTrace) (s2 v2 s3 v3 : Nat)
    (hloop : MptScsiGetReplyLoop Dev fuel Tr = some (EFI_SUCCESS, Tr1))
    (hr1 : Dev.readResp Tr1.readCount MPT_REG_REP_Q = (s2, v2))
    (hok : EFI_ERROR s2 = false)
    (hr2 : Dev.readResp (Tr1.readCount + 1) MPT_REG_REP_Q = (s3, v3))
    (hv3 : v3 ≠ MAX_UINT32) :
    ∃ Tr2, MptScsiGetReply Dev fuel Tr = some (EFI_DEVICE_ERROR, v2, Tr2) := by
  refine ⟨{ Tr1 with readCount := Tr1.readCount + 1 + 1 }, ?_⟩
  simp only [MptScsiGetReply, hloop, In32, hr1]
  rw [if_neg (by decide : ¬(EFI_ERROR EFI_SUCCESS = true)), if_neg (by simp [hok])]
  have : Dev.readResp ({ Tr1 with readCount := Tr1.readCount + 1 } : IoTrace).readCount
      MPT_REG_REP_Q = (s3, v3) := hr2
  rw [if_pos]
  exact Or.inr (by simpa [this] using hv3)

/-- A device behaviour for the C4 witness: the interrupt status read shows
the reply bit, the first reply queue read yields token 1, the second yields
5 instead of the all-ones sentinel. -/
def devBadSentinel : MptDevBehavior :=
  { readResp := fun i _ =>
      if i = 0 then (EFI_SUCCESS, MPT_IMASK_REPLY)
      else if i = 1 then (EFI_SUCCESS, 1)
      else (EFI_SUCCESS, 5)
    writeResp := fun _ _ _ => EFI_SUCCESS }

/-- Witness for C4: the concrete device above makes MptScsiGetReply return
EFI_DEVICE_ERROR. -/
theorem mptScsiGetReply_bad_second_read_witness :
    ∃ Tr2, MptScsiGetReply devBadSentinel 1 { readCount := 0, writes := [] }
      = some (EFI_DEVICE_ERROR, 1, Tr2) :=
  mptScsiGetReply_bad_second_read devBadSentinel 1
    { readCount := 0, writes := [] } { readCount := 1, writes := [] }
    EFI_SUCCESS 1 EFI_SUCCESS 5 (by decide) (by decide) (by decide)
    (by decide) (by decide)

/-- C9: the poll loop of MptScsiGetReply has no timeout: against any device
behaviour whose interrupt status reads always succeed with the reply
interrupt bit clear, MptScsiGetReply never returns, whatever fuel it is
given (so the loop exits only on a failed read or an observed reply bit). -/
theorem mptScsiGetReply_no_reply_never_returns (Dev : MptDevBehavior)
    (h : ∀ i, EFI_ERROR (Dev.readResp i MPT_REG_ISTATUS).1 = false
      ∧ (Dev.readResp i MPT_REG_ISTATUS).2 &&& MPT_IMASK_REPLY = 0) :
    ∀ fuel Tr, MptScsiGetReply Dev fuel Tr = none := by
  have hloop : ∀ fuel Tr, MptScsiGetReplyLoop Dev fuel Tr = none := by
    intro fuel
    induction fuel with
    | zero => intro Tr; rfl
    | succ n ih =>
      intro Tr
      have hA : ¬(EFI_ERROR (Dev.readResp Tr.readCount MPT_REG_ISTATUS).1 = true) := by
        simp [(h Tr.readCount).1]
      have hB : ¬((Dev.readResp Tr.readCount MPT_REG_ISTATUS).2 &&& MPT_IMASK_REPLY ≠ 0) := by
        simpa using (h Tr.readCount).2
      simp only [MptScsiGetReplyLoop, In32]
      rw [if_neg hA, if_neg hB]
      exact ih _
  intro fuel Tr
  simp only [MptScsiGetReply, hloop fuel Tr]

/-- A device behaviour for the C9 witness: every read succeeds and returns
zero, so the reply interrupt bit never appears. -/
def devNeverReplies : MptDevBehavior :=
  { readResp := fun _ _ => (EFI_SUCCESS, 0)
    writeResp := fun _ _ _ => EFI_SUCCESS }

/-- Witness for C9: against the never-replying device, MptScsiGetReply
returns none at a concrete fuel. -/
theorem mptScsiGetReply_no_reply_never_returns_witness :
    MptScsiGetReply devNeverReplies 5 { readCount := 0, writes := [] } = none :=
  mptScsiGetReply_no_reply_never_returns devNeverReplies
    (fun _ => ⟨rfl, Nat.zero_and _⟩) 5 { readCount := 0, writes := [] }

/-- The three register writes issued by one successful MptScsiReset: the
reset doorbell function, the interrupt mask set to doorbell and reply, and
the interrupt status cleared. -/
def mptScsiResetWrites : List (Nat × Nat) :=
  [(MPT_REG_DOORBELL, (MPT_DOORBELL_RESET <<< 24) ||| (0 <<< 16)),
   (MPT_REG_IMASK, MPT_IMASK_DOORBELL ||| MPT_IMASK_REPLY),
   (MPT_REG_ISTATUS, 0)]

/-- Helper: when every register write succeeds, MptScsiReset appends exactly
its three writes to the trace. -/
theorem mptScsiReset_trace (Dev : MptDevBehavior) (Tr : IoTrace)
    (h : ∀ i a d, EFI_ERROR (Dev.writeResp i a d) = false) :
    (MptScsiReset Dev Tr).2
      = { Tr with writes := Tr.writes ++ mptScsiResetWrites } := by
  simp only [MptScsiReset, MptDoorbell, Out32]
  rw [if_neg (by simp [h]), if_neg (by simp [h]), if_neg (by simp [h])]
  simp [mptScsiResetWrites]

/-- Helper: the effect of a write list on one register, split at an
append. -/
theorem applyWrites_append (l1 l2 : List (Nat × Nat)) (Regs : Nat → Nat) :
    ApplyWrites (l1 ++ l2) Regs = ApplyWrites l2 (ApplyWrites l1 Regs) := by
  simp [ApplyWrites, List.foldl_append]

/-- C8: invoking MptScsiReset twice in sequence, from any starting register
state and any starting trace, leaves the interrupt mask and interrupt
status registers in the same final state as invoking it once: the mask
holds doorbell-or-reply and the status holds 0. -/
theorem mptScsiReset_idempotent (Dev : MptDevBehavior) (Tr : IoTrace)
    (Regs : Nat → Nat)
    (h : ∀ i a d, EFI_ERROR (Dev.writeResp i a d) = false) :
    ApplyWrites (MptScsiReset Dev (MptScsiReset Dev Tr).2).2.writes Regs MPT_REG_IMASK
      = ApplyWrites (MptScsiReset Dev Tr).2.writes Regs MPT_REG_IMASK ∧
    ApplyWrites (MptScsiReset Dev (MptScsiReset Dev Tr).2).2.writes Regs MPT_REG_ISTATUS
      = ApplyWrites (MptScsiReset Dev Tr).2.writes Regs MPT_REG_ISTATUS ∧
    ApplyWrites (MptScsiReset Dev Tr).2.writes Regs MPT_REG_IMASK
      = (MPT_IMASK_DOORBELL ||| MPT_IMASK_REPLY) ∧
    ApplyWrites (MptScsiReset Dev Tr).2.writes Regs MPT_REG_ISTATUS = 0 := by
  rw [mptScsiReset_trace Dev (MptScsiReset Dev Tr).2 h, mptScsiReset_trace Dev Tr h]
  simp only [applyWrites_append]
  refine ⟨?_, ?_, ?_, ?_⟩ <;>
    simp [ApplyWrites, mptScsiResetWrites, MPT_REG_DOORBELL, MPT_REG_IMASK,
      MPT_REG_ISTATUS, MPT_IMASK_DOORBELL, MPT_IMASK_REPLY]

/-- Witness for C8: the always-succeeding device, an empty trace and the
all-zero register file. -/
theorem mptScsiReset_idempotent_witness :
    ApplyWrites (MptScsiReset devNeverReplies
        (MptScsiReset devNeverReplies { readCount := 0, writes := [] }).2).2.writes
        (fun _ => 0) MPT_REG_IMASK
      = ApplyWrites (MptScsiReset devNeverReplies
          { readCount := 0, writes := [] }).2.writes (fun _ => 0) MPT_REG_IMASK ∧
    ApplyWrites (MptScsiReset devNeverReplies
        (MptScsiReset devNeverReplies { readCount := 0, writes := [] }).2).2.writes
        (fun _ => 0) MPT_REG_ISTATUS
      = ApplyWrites (MptScsiReset devNeverReplies
          { readCount := 0, writes := [] }).2.writes (fun _ => 0) MPT_REG_ISTATUS ∧
    ApplyWrites (MptScsiReset devNeverReplies
        { readCount := 0, writes := [] }).2.writes (fun _ => 0) MPT_REG_IMASK
      = (MPT_IMASK_DOORBELL ||| MPT_IMASK_REPLY) ∧
    ApplyWrites (MptScsiReset devNeverReplies
        { readCount := 0, writes := [] }).2.writes (fun _ => 0) MPT_REG_ISTATUS = 0 :=
  mptScsiReset_idempotent devNeverReplies { readCount := 0, writes := [] }
    (fun _ => 0) (fun _ _ _ => rfl)

/-- Helper: the success status is not an error. -/
theorem EFI_ERROR_success : EFI_ERROR EFI_SUCCESS = false := by decide

/-- C3: for every request where translation and submission succeeded but a
failure occurs afterwards (the poll/get-reply stage returns an error status,
or reply handling does), MptScsiPassThru finalizes the packet through the
Fatal path: both transfer lengths zeroed, host adapter status forced to the
generic OTHER error unless already non-OK, target status forced to
task-aborted, sense data length zeroed, and the call returns
EFI_DEVICE_ERROR. -/
theorem mptScsiPassThru_fatal_after_submit
    (Dev : MptDevBehavior) (DmaPhysical Target Lun : Nat)
    (Packet P1 : ScsiRequestPacket) (Dma Dma1 : MptScsiDmaBuffer)
    (fuel : Nat) (Tr : IoTrace) (gs Reply : Nat) (Tr4 : IoTrace)
    (hpop : MptScsiPopulateRequest DmaPhysical Target Lun Packet Dma
      = (EFI_SUCCESS, P1, Dma1))
    (hsend : EFI_ERROR (Dev.writeResp Tr.writes.length MPT_REG_REQ_Q
      (DmaPhysical + mptOffsetOfIoRequest)) = false)
    (hget : MptScsiGetReply Dev fuel
        { Tr with writes := Tr.writes
            ++ [(MPT_REG_REQ_Q, DmaPhysical + mptOffsetOfIoRequest)] }
      = some (gs, Reply, Tr4))
    (hfatal : EFI_ERROR gs = true
      ∨ EFI_ERROR (MptScsiHandleReply Dev DmaPhysical Reply
          { P1 with HostAdapterStatus := EFI_EXT_SCSI_STATUS_HOST_ADAPTER_OK }
          Dma1 Tr4).1 = true) :
    ∃ PF TrF,
      MptScsiPassThru Dev DmaPhysical Target Lun Packet Dma fuel Tr
        = some (EFI_DEVICE_ERROR, MptScsiFatalFinish PF, Dma1, TrF) ∧
      PF = (if EFI_ERROR gs = true then
          { P1 with HostAdapterStatus := EFI_EXT_SCSI_STATUS_HOST_ADAPTER_OK }
        else
          (MptScsiHandleReply Dev DmaPhysical Reply
            { P1 with HostAdapterStatus := EFI_EXT_SCSI_STATUS_HOST_ADAPTER_OK }
            Dma1 Tr4).2.1) ∧
      (MptScsiFatalFinish PF).InTransferLength = 0 ∧
      (MptScsiFatalFinish PF).OutTransferLength = 0 ∧
      (MptScsiFatalFinish PF).TargetStatus
        = EFI_EXT_SCSI_STATUS_TARGET_TASK_ABORTED ∧
      (MptScsiFatalFinish PF).SenseDataLength = 0 ∧
      (MptScsiFatalFinish PF).HostAdapterStatus
        = (if PF.HostAdapterStatus = EFI_EXT_SCSI_STATUS_HOST_ADAPTER_OK
           then EFI_EXT_SCSI_STATUS_HOST_ADAPTER_OTHER
           else PF.HostAdapterStatus) := by
  have hsendeq : MptScsiSendRequest Dev DmaPhysical P1 Tr
      = (EFI_SUCCESS, P1,
        { Tr with writes := Tr.writes
            ++ [(MPT_REG_REQ_Q, DmaPhysical + mptOffsetOfIoRequest)] }) := by
    simp only [MptScsiSendRequest, Out32]
    rw [if_neg (by simp [hsend])]
  by_cases hgs : EFI_ERROR gs = true
  · refine ⟨{ P1 with
        HostAdapterStatus := EFI_EXT_SCSI_STATUS_HOST_ADAPTER_OK }, Tr4,
      ?_, by rw [if_pos hgs], rfl, rfl, rfl, rfl, rfl⟩
    simp only [MptScsiPassThru, hpop]
    simp only [hsendeq]
    simp [hget, hgs, EFI_ERROR_success]
  · have herr : EFI_ERROR (MptScsiHandleReply Dev DmaPhysical Reply
        { P1 with HostAdapterStatus := EFI_EXT_SCSI_STATUS_HOST_ADAPTER_OK }
        Dma1 Tr4).1 = true := hfatal.resolve_left hgs
    refine ⟨(MptScsiHandleReply Dev DmaPhysical Reply
        { P1 with HostAdapterStatus := EFI_EXT_SCSI_STATUS_HOST_ADAPTER_OK }
        Dma1 Tr4).2.1,
      (MptScsiHandleReply Dev DmaPhysical Reply
        { P1 with HostAdapterStatus := EFI_EXT_SCSI_STATUS_HOST_ADAPTER_OK }
        Dma1 Tr4).2.2,
      ?_, by rw [if_neg hgs], rfl, rfl, rfl, rfl, rfl⟩
    simp only [MptScsiPassThru, hpop]
    simp only [hsendeq]
    simp [hget, hgs, herr, EFI_ERROR_success]

/-- A device behaviour for the C3 witness: submission succeeds, but the
first interrupt status poll read fails with EFI_DEVICE_ERROR. -/
def devReadsFail : MptDevBehavior :=
  { readResp := fun _ _ => (EFI_DEVICE_ERROR, 0)
    writeResp := fun _ _ _ => EFI_SUCCESS }

/-- The concrete successful translation used by the C3 witness. -/
def c3Pop : Nat × ScsiRequestPacket × MptScsiDmaBuffer :=
  MptScsiPopulateRequest 0x1000 0 0 samplePacket sampleDma

/-- Witness for C3: a failed poll read right after a successful submission
drives MptScsiPassThru through the Fatal path. -/
theorem mptScsiPassThru_fatal_after_submit_witness :
    ∃ PF TrF,
      MptScsiPassThru devReadsFail 0x1000 0 0 samplePacket sampleDma 1
          { readCount := 0, writes := [] }
        = some (EFI_DEVICE_ERROR, MptScsiFatalFinish PF, c3Pop.2.2, TrF) ∧
      PF = (if EFI_ERROR EFI_DEVICE_ERROR = true then
          { c3Pop.2.1 with
            HostAdapterStatus := EFI_EXT_SCSI_STATUS_HOST_ADAPTER_OK }
        else
          (MptScsiHandleReply devReadsFail 0x1000 0
            { c3Pop.2.1 with
              HostAdapterStatus := EFI_EXT_SCSI_STATUS_HOST_ADAPTER_OK }
            c3Pop.2.2
            { readCount := 1,
              writes := [(MPT_REG_REQ_Q, 0x1000 + mptOffsetOfIoRequest)] }).2.1) ∧
      (MptScsiFatalFinish PF).InTransferLength = 0 ∧
      (MptScsiFatalFinish PF).OutTransferLength = 0 ∧
      (MptScsiFatalFinish PF).TargetStatus
        = EFI_EXT_SCSI_STATUS_TARGET_TASK_ABORTED ∧
      (MptScsiFatalFinish PF).SenseDataLength = 0 ∧
      (MptScsiFatalFinish PF).HostAdapterStatus
        = (if PF.HostAdapterStatus = EFI_EXT_SCSI_STATUS_HOST_ADAPTER_OK
           then EFI_EXT_SCSI_STATUS_HOST_ADAPTER_OTHER
           else PF.HostAdapterStatus) :=
  mptScsiPassThru_fatal_after_submit devReadsFail 0x1000 0 0 samplePacket
    c3Pop.2.1 sampleDma c3Pop.2.2 1 { readCount := 0, writes := [] }
    EFI_DEVICE_ERROR 0
    { readCount := 1, writes := [(MPT_REG_REQ_Q, 0x1000 + mptOffsetOfIoRequest)] }
    rfl rfl rfl (Or.inl rfl)
